import Mathlib

/-!
Verification development for the jrk G2 configuration library
(`Circuit-killer/pololu-jrk-g2-software`).

The development shallowly embeds the C/C++ sources:
* `jrk_variables.c` (variables model: decoding, getters, copy, fetch),
* `jrk_settings_to_string` (settings text rendering),
* `pid_constant_control.cpp` (Qt PID-constant display widget).

Machine integers are embedded as `Nat`/`Int` with explicit `% 2^w`
where the C code can overflow; C `NULL`-able pointers become `Option`;
out-parameters become explicit result components; fallible operations
return an explicit `Option jrk_error` alongside their result.
-/

/-! ## Protocol constants

`jrk_protocol.h` is not among the provided sources; only its users are.

Modelled from the spec: the spec states a fixed-layout little-endian
buffer with "fixed byte offsets and widths per field"; the offset values
below are representative distinct in-range offsets (the theorems in this
file do not depend on the particular offset values, only on the decode
structure).  Pin numbers are the bit positions of the digital-readings
bitmap ("pin *i*'s bit is `(byte >> i) & 1`").
-/

abbrev JRK_CONTROL_PIN_COUNT : Nat := 8

def JRK_PIN_NUM_SCL : Fin JRK_CONTROL_PIN_COUNT := 0
def JRK_PIN_NUM_SDA : Fin JRK_CONTROL_PIN_COUNT := 1
def JRK_PIN_NUM_TX : Fin JRK_CONTROL_PIN_COUNT := 2
def JRK_PIN_NUM_RX : Fin JRK_CONTROL_PIN_COUNT := 3
def JRK_PIN_NUM_RC : Fin JRK_CONTROL_PIN_COUNT := 4
def JRK_PIN_NUM_AUX : Fin JRK_CONTROL_PIN_COUNT := 5
def JRK_PIN_NUM_FBA : Fin JRK_CONTROL_PIN_COUNT := 6
def JRK_PIN_NUM_FBT : Fin JRK_CONTROL_PIN_COUNT := 7

def JRK_VAR_INPUT : Nat := 0x00
def JRK_VAR_TARGET : Nat := 0x02
def JRK_VAR_FEEDBACK : Nat := 0x04
def JRK_VAR_SCALED_FEEDBACK : Nat := 0x06
def JRK_VAR_INTEGRAL : Nat := 0x08
def JRK_VAR_DUTY_CYCLE_TARGET : Nat := 0x0A
def JRK_VAR_DUTY_CYCLE : Nat := 0x0C
def JRK_VAR_CURRENT_LOW_RES : Nat := 0x0E
def JRK_VAR_PID_PERIOD_EXCEEDED : Nat := 0x0F
def JRK_VAR_PID_PERIOD_COUNT : Nat := 0x10
def JRK_VAR_ERROR_FLAGS_HALTING : Nat := 0x12
def JRK_VAR_ERROR_FLAGS_OCCURRED : Nat := 0x14
def JRK_VAR_FLAG_BYTE1 : Nat := 0x16
def JRK_VAR_VIN_VOLTAGE : Nat := 0x17
def JRK_VAR_CURRENT : Nat := 0x19
def JRK_VAR_DEVICE_RESET : Nat := 0x1F
def JRK_VAR_UP_TIME : Nat := 0x20
def JRK_VAR_RC_PULSE_WIDTH : Nat := 0x24
def JRK_VAR_FBT_READING : Nat := 0x26
def JRK_VAR_RAW_CURRENT : Nat := 0x28
def JRK_VAR_ENCODED_HARD_CURRENT_LIMIT : Nat := 0x2A
def JRK_VAR_LAST_DUTY_CYCLE : Nat := 0x2C
def JRK_VAR_CURRENT_CHOPPING_CONSECUTIVE_COUNT : Nat := 0x2E
def JRK_VAR_CURRENT_CHOPPING_OCCURRENCE_COUNT : Nat := 0x2F
def JRK_VAR_ANALOG_READING_SDA : Nat := 0x30
def JRK_VAR_ANALOG_READING_FBA : Nat := 0x32
def JRK_VAR_DIGITAL_READINGS : Nat := 0x34
def JRK_VARIABLES_SIZE : Nat := 0x3A

/-- `jrk_variables.c` line 3: `#define PIN_COUNT 5`. -/
abbrev PIN_COUNT : Nat := 5

/-! ## Little-endian buffer reads

Modelled from the spec: the byte-reading helpers (`read_uint16_t`,
`read_int16_t`, `read_uint32_t`) are declared in `jrk_internal.h`, which
is not among the provided sources; the spec fixes "little-endian
multi-byte integers".  A buffer is embedded as a byte-indexed function
`Nat → Nat` (each value a byte, `< 256`, where a theorem needs it). -/

def read_uint16_t (buf : Nat → Nat) (off : Nat) : Nat :=
  buf off + 256 * buf (off + 1)

/-- Reinterpret a 16-bit unsigned value (or any `Nat`) as a signed 16-bit
integer, the way a two's-complement conversion to `int16_t` does. -/
def int16_of_nat (n : Nat) : Int :=
  if n % 65536 < 32768 then (n % 65536 : Nat) else (n % 65536 : Nat) - 65536

def read_int16_t (buf : Nat → Nat) (off : Nat) : Int :=
  int16_of_nat (read_uint16_t buf off)

def read_uint32_t (buf : Nat → Nat) (off : Nat) : Nat :=
  buf off + 256 * buf (off + 1) + 65536 * buf (off + 2) + 16777216 * buf (off + 3)

/-- Conversion of an `int` difference to `int16_t` on return from
`jrk_variables_get_error` (two's-complement wraparound). -/
def int16_of_int (z : Int) : Int :=
  if z % 65536 < 32768 then z % 65536 else z % 65536 - 65536

/-! ## The variables model (`struct jrk_variables`) -/

/-- Per-pin information (the anonymous struct in `pin_info[]`). -/
structure jrk_pin_info where
  analog_reading : Nat
  digital_reading : Bool
  pin_state : Nat
deriving DecidableEq, Repr

/-- `struct jrk_variables`: unsigned fields as `Nat`, signed (`int16_t`)
fields as `Int`, `bool` as `Bool`; the `pin_info` array of size
`JRK_CONTROL_PIN_COUNT` as a total function from `Fin`, so that every
access carries its bounds proof. -/
structure jrk_variables where
  input : Nat
  target : Nat
  feedback : Nat
  scaled_feedback : Nat
  integral : Int
  duty_cycle_target : Int
  duty_cycle : Int
  current_low_res : Nat
  pid_period_exceeded : Bool
  pid_period_count : Nat
  error_flags_halting : Nat
  error_flags_occurred : Nat
  vin_voltage : Nat
  current : Nat
  device_reset : Nat
  up_time : Nat
  rc_pulse_width : Nat
  fbt_reading : Nat
  raw_current : Nat
  encoded_hard_current_limit : Nat
  last_duty_cycle : Int
  current_chopping_consecutive_count : Nat
  current_chopping_occurrence_count : Nat
  force_mode : Nat
  pin_info : Fin JRK_CONTROL_PIN_COUNT → jrk_pin_info

/-- `write_buffer_to_variables` from `jrk_variables.c`, fused with the
zero-initialisation performed by `calloc` in its callers
(`jrk_variables_create` / `jrk_get_variables`): every struct member the
function does not assign (only `pin_state`) stays zero. -/
def write_buffer_to_variables (buf : Nat → Nat) : jrk_variables where
  input := read_uint16_t buf JRK_VAR_INPUT
  target := read_uint16_t buf JRK_VAR_TARGET
  feedback := read_uint16_t buf JRK_VAR_FEEDBACK
  scaled_feedback := read_uint16_t buf JRK_VAR_SCALED_FEEDBACK
  integral := read_int16_t buf JRK_VAR_INTEGRAL
  duty_cycle_target := read_int16_t buf JRK_VAR_DUTY_CYCLE_TARGET
  duty_cycle := read_int16_t buf JRK_VAR_DUTY_CYCLE
  current_low_res := buf JRK_VAR_CURRENT_LOW_RES
  pid_period_exceeded := buf JRK_VAR_PID_PERIOD_EXCEEDED &&& 1 == 1
  pid_period_count := read_uint16_t buf JRK_VAR_PID_PERIOD_COUNT
  error_flags_halting := read_uint16_t buf JRK_VAR_ERROR_FLAGS_HALTING
  error_flags_occurred := read_uint16_t buf JRK_VAR_ERROR_FLAGS_OCCURRED
  vin_voltage := read_uint16_t buf JRK_VAR_VIN_VOLTAGE
  current := read_uint16_t buf JRK_VAR_CURRENT
  device_reset := buf JRK_VAR_DEVICE_RESET
  up_time := read_uint32_t buf JRK_VAR_UP_TIME
  rc_pulse_width := read_uint16_t buf JRK_VAR_RC_PULSE_WIDTH
  fbt_reading := read_uint16_t buf JRK_VAR_FBT_READING
  raw_current := read_uint16_t buf JRK_VAR_RAW_CURRENT
  encoded_hard_current_limit := read_uint16_t buf JRK_VAR_ENCODED_HARD_CURRENT_LIMIT
  last_duty_cycle := read_int16_t buf JRK_VAR_LAST_DUTY_CYCLE
  current_chopping_consecutive_count := buf JRK_VAR_CURRENT_CHOPPING_CONSECUTIVE_COUNT
  current_chopping_occurrence_count := buf JRK_VAR_CURRENT_CHOPPING_OCCURRENCE_COUNT
  force_mode := buf JRK_VAR_FLAG_BYTE1 &&& 3
  pin_info := fun i =>
    { analog_reading :=
        if i = JRK_PIN_NUM_SDA then read_uint16_t buf JRK_VAR_ANALOG_READING_SDA
        else if i = JRK_PIN_NUM_FBA then read_uint16_t buf JRK_VAR_ANALOG_READING_FBA
        else 0xFFFF
      digital_reading := buf JRK_VAR_DIGITAL_READINGS >>> i.val &&& 1 == 1
      pin_state := 0 }

/-! ## Variables getters

A C pointer argument that may be `NULL` is an `Option`; `vars == NULL`
is the `none` case. -/

def jrk_variables_get_input (vars : Option jrk_variables) : Nat :=
  match vars with
  | none => 0
  | some v => v.input

def jrk_variables_get_target (vars : Option jrk_variables) : Nat :=
  match vars with
  | none => 0
  | some v => v.target

def jrk_variables_get_feedback (vars : Option jrk_variables) : Nat :=
  match vars with
  | none => 0
  | some v => v.feedback

def jrk_variables_get_scaled_feedback (vars : Option jrk_variables) : Nat :=
  match vars with
  | none => 0
  | some v => v.scaled_feedback

def jrk_variables_get_integral (vars : Option jrk_variables) : Int :=
  match vars with
  | none => 0
  | some v => v.integral

def jrk_variables_get_duty_cycle_target (vars : Option jrk_variables) : Int :=
  match vars with
  | none => 0
  | some v => v.duty_cycle_target

def jrk_variables_get_duty_cycle (vars : Option jrk_variables) : Int :=
  match vars with
  | none => 0
  | some v => v.duty_cycle

def jrk_variables_get_current_low_res (vars : Option jrk_variables) : Nat :=
  match vars with
  | none => 0
  | some v => v.current_low_res

def jrk_variables_get_pid_period_exceeded (vars : Option jrk_variables) : Bool :=
  match vars with
  | none => false
  | some v => v.pid_period_exceeded

def jrk_variables_get_pid_period_count (vars : Option jrk_variables) : Nat :=
  match vars with
  | none => 0
  | some v => v.pid_period_count

def jrk_variables_get_error_flags_halting (vars : Option jrk_variables) : Nat :=
  match vars with
  | none => 0
  | some v => v.error_flags_halting

def jrk_variables_get_error_flags_occurred (vars : Option jrk_variables) : Nat :=
  match vars with
  | none => 0
  | some v => v.error_flags_occurred

def jrk_variables_get_vin_voltage (vars : Option jrk_variables) : Nat :=
  match vars with
  | none => 0
  | some v => v.vin_voltage

def jrk_variables_get_current (vars : Option jrk_variables) : Nat :=
  match vars with
  | none => 0
  | some v => v.current

def jrk_variables_get_device_reset (vars : Option jrk_variables) : Nat :=
  match vars with
  | none => 0
  | some v => v.device_reset

def jrk_variables_get_up_time (vars : Option jrk_variables) : Nat :=
  match vars with
  | none => 0
  | some v => v.up_time

def jrk_variables_get_rc_pulse_width (vars : Option jrk_variables) : Nat :=
  match vars with
  | none => 0
  | some v => v.rc_pulse_width

def jrk_variables_get_fbt_reading (vars : Option jrk_variables) : Nat :=
  match vars with
  | none => 0
  | some v => v.fbt_reading

def jrk_variables_get_raw_current (vars : Option jrk_variables) : Nat :=
  match vars with
  | none => 0
  | some v => v.raw_current

def jrk_variables_get_encoded_hard_current_limit (vars : Option jrk_variables) : Nat :=
  match vars with
  | none => 0
  | some v => v.encoded_hard_current_limit

def jrk_variables_get_last_duty_cycle (vars : Option jrk_variables) : Int :=
  match vars with
  | none => 0
  | some v => v.last_duty_cycle

def jrk_variables_get_current_chopping_consecutive_count
    (vars : Option jrk_variables) : Nat :=
  match vars with
  | none => 0
  | some v => v.current_chopping_consecutive_count

def jrk_variables_get_current_chopping_occurrence_count
    (vars : Option jrk_variables) : Nat :=
  match vars with
  | none => 0
  | some v => v.current_chopping_occurrence_count

/-- `jrk_variables_get_error`: `return vars->scaled_feedback - vars->target;`
with both operands promoted to `int` and the difference converted back to
the `int16_t` return type. -/
def jrk_variables_get_error (vars : Option jrk_variables) : Int :=
  match vars with
  | none => 0
  | some v => int16_of_int ((v.scaled_feedback : Int) - (v.target : Int))

def jrk_variables_get_force_mode (vars : Option jrk_variables) : Nat :=
  match vars with
  | none => 0
  | some v => v.force_mode

/-- `if (variables == NULL || pin >= JRK_CONTROL_PIN_COUNT) { return 0xFFFF; }` -/
def jrk_variables_get_analog_reading
    (vars : Option jrk_variables) (pin : Nat) : Nat :=
  match vars with
  | none => 0xFFFF
  | some v =>
    if h : pin < JRK_CONTROL_PIN_COUNT then (v.pin_info ⟨pin, h⟩).analog_reading
    else 0xFFFF

/-- `if (variables == NULL || pin >= JRK_CONTROL_PIN_COUNT) { return 0; }` -/
def jrk_variables_get_digital_reading
    (vars : Option jrk_variables) (pin : Nat) : Bool :=
  match vars with
  | none => false
  | some v =>
    if h : pin < JRK_CONTROL_PIN_COUNT then (v.pin_info ⟨pin, h⟩).digital_reading
    else false

/-- `if (variables == NULL || pin >= PIN_COUNT) { return 0; }` — note the
bound here is `PIN_COUNT` (5), not `JRK_CONTROL_PIN_COUNT` (8). -/
def jrk_variables_get_pin_state
    (vars : Option jrk_variables) (pin : Nat) : Nat :=
  match vars with
  | none => 0
  | some v =>
    if h : pin < PIN_COUNT then
      (v.pin_info ⟨pin, Nat.lt_of_lt_of_le h (by decide)⟩).pin_state
    else 0

/-! ## The error model

`jrk_error.c` is not among the provided sources (only `jrk.h`
declarations and callers are), so the error object is modelled from the
spec. -/

/-- Modelled from the spec: `jrk_error.c` is missing from the sources.
"an immutable value carrying a human-readable message (one or more
complete sentences) and zero or more categorical codes". -/
structure jrk_error where
  message : String
  codes : List Nat
deriving DecidableEq, Repr

/-- Modelled from the spec: `jrk_error_create` builds a fresh error from a
message, with no categorical codes. -/
def jrk_error_create (msg : String) : jrk_error :=
  { message := msg, codes := [] }

/-- Modelled from the spec: "a higher-level operation that fails because a
lower-level one failed wraps/annotates the lower error with a contextual
sentence rather than replacing it, preserving the original code(s)" — the
contextual sentence is prepended to the existing message and the codes
are kept. -/
def jrk_error_add (error : jrk_error) (msg : String) : jrk_error :=
  { message := msg ++ "  " ++ error.message, codes := error.codes }

/-! ## `jrk_variables_copy`

The C out-parameter `jrk_variables ** dest` becomes a `Bool` saying
whether the pointer itself is non-`NULL`, plus an explicit result
component holding the final `*dest` (meaningful only when that `Bool` is
true; the model returns `none` there, matching "no object delivered").
`calloc` is modelled as succeeding: allocation failure (the
`jrk_error_no_memory` path, which also leaves `*dest` null) is outside
the shallow embedding. -/

def jrk_variables_copy (source : Option jrk_variables)
    (dest_nonnull : Bool) : Option jrk_error × Option jrk_variables :=
  if !dest_nonnull then
    (some (jrk_error_create "Variables output pointer is null."), none)
  else
    match source with
    | none => (none, none)
    | some s => (none, some s)

/-! ## `jrk_get_variables`

`jrk_get_variable_segment` performs device I/O and its implementation is
not among the provided sources.  Modelled from the spec: the transport
dependency is a "read-exact(length, timeout) -> bytes or timeout-error"
primitive, so a handle is embedded as the outcome that primitive will
deliver for the one full-variables segment read the function makes:
either a lower-level error or the raw byte buffer, as a function of the
`flags` argument the caller passes through. -/

structure jrk_handle where
  segment_read : Nat → Except jrk_error (Nat → Nat)

/-- `jrk_get_variables(handle, variables, flags)`.  The first component is
the returned error (`none` = success); the second is the final value of
`*variables` when the output pointer is non-`NULL`.  `jrk_variables_create`'s
`calloc` is modelled as succeeding. -/
def jrk_get_variables (handle : Option jrk_handle)
    (variables_nonnull : Bool) (flags : Nat) :
    Option jrk_error × Option jrk_variables :=
  if !variables_nonnull then
    (some (jrk_error_create "Variables output pointer is null."), none)
  else
    match handle with
    | none => (some (jrk_error_create "Handle is null."), none)
    | some h =>
      match h.segment_read flags with
      | .error e =>
        (some (jrk_error_add e
          "There was an error reading variables from the device."), none)
      | .ok buf => (none, some (write_buffer_to_variables buf))

/-! ## The settings text rendering (`jrk_settings_to_string`)

Only the fields read by `jrk_settings_to_string` are modelled; the
settings object is plain data (unsigned fields as `Nat`, the three
`int16_t` calibration fields as `Int`, booleans as `Bool`).  The field
getters it calls are plain field reads (`jrk_settings.c` is not among
the provided sources; the spec says getters are plain field access). -/

def JRK_PRODUCT_UMC04A_30V : Nat := 1
def JRK_PRODUCT_UMC04A_40V : Nat := 2
def JRK_PRODUCT_UMC05A_30V : Nat := 3
def JRK_PRODUCT_UMC05A_40V : Nat := 4

/-- Modelled from the spec: `JRK_PRODUCT_UMC06A` is referenced by
`jrk_settings_to_string` but defined in the missing `jrk.h` portion; it
is the one product code distinct from the four listed above ("a field
present on older models but replaced by a different field on a newer
model"). -/
def JRK_PRODUCT_UMC06A : Nat := 5

/-- Modelled from the spec: the `DOCUMENTATION_URL` macro is defined in
the missing `jrk_internal.h`. -/
def DOCUMENTATION_URL : String := "https://www.pololu.com/docs/0J73"

/-- Modelled from the spec: `jrk_look_up_product_name_short` "looks up a
short name string without spaces representing the product", returning an
empty string for an unrecognized code (doc comment in `jrk.h`). -/
def jrk_look_up_product_name_short (product : Nat) : String :=
  if product = JRK_PRODUCT_UMC04A_30V then "18v19"
  else if product = JRK_PRODUCT_UMC04A_40V then "24v13"
  else if product = JRK_PRODUCT_UMC05A_30V then "18v27"
  else if product = JRK_PRODUCT_UMC05A_40V then "24v21"
  else if product = JRK_PRODUCT_UMC06A then "21v3"
  else ""

/-- Modelled from the spec: `jrk_code_to_name` resolves an enumerated
code through a code-to-short-name table ("enumerated fields rendered by
their short symbolic name (via a code→name lookup)"); the caller's
`value_str` starts as `""` and is only overwritten on a successful
lookup. -/
def jrk_code_to_name (table : List (Nat × String)) (code : Nat) : String :=
  (table.lookup code).getD ""

/-- Modelled from the spec: short-name tables for the enumerated settings
fields live in the missing `jrk_names.c`; the table contents do not
matter to the theorems below, only that rendering goes through
`jrk_code_to_name`. -/
def jrk_input_mode_names_short : List (Nat × String) :=
  [(0, "serial"), (1, "analog"), (2, "rc")]

def jrk_input_scaling_degree_names_short : List (Nat × String) :=
  [(0, "linear"), (1, "quadratic"), (2, "cubic"), (3, "quartic"), (4, "quintic")]

def jrk_feedback_mode_names_short : List (Nat × String) :=
  [(0, "none"), (1, "analog"), (2, "frequency")]

def jrk_serial_mode_names_short : List (Nat × String) :=
  [(0, "usb_dual_port"), (1, "usb_single_port"), (2, "uart")]

def jrk_pwm_frequency_names_short : List (Nat × String) :=
  [(0, "20"), (1, "5")]

def jrk_fbt_method_names_short : List (Nat × String) :=
  [(0, "counting"), (1, "timing")]

def jrk_fbt_timing_clock_names_short : List (Nat × String) :=
  [(0, "1.5"), (1, "3"), (2, "6"), (3, "12"), (4, "24"), (5, "48")]

structure jrk_settings where
  product : Nat
  input_mode : Nat
  input_error_minimum : Nat
  input_error_maximum : Nat
  input_minimum : Nat
  input_maximum : Nat
  input_neutral_minimum : Nat
  input_neutral_maximum : Nat
  output_minimum : Nat
  output_neutral : Nat
  output_maximum : Nat
  input_invert : Bool
  input_scaling_degree : Nat
  input_detect_disconnect : Bool
  input_analog_samples_exponent : Nat
  feedback_mode : Nat
  feedback_error_minimum : Nat
  feedback_error_maximum : Nat
  feedback_minimum : Nat
  feedback_maximum : Nat
  feedback_invert : Bool
  feedback_detect_disconnect : Bool
  feedback_dead_zone : Nat
  feedback_analog_samples_exponent : Nat
  feedback_wraparound : Bool
  serial_mode : Nat
  serial_baud_rate : Nat
  serial_timeout : Nat
  serial_device_number : Nat
  never_sleep : Bool
  serial_enable_crc : Bool
  serial_enable_14bit_device_number : Bool
  serial_disable_compact_protocol : Bool
  proportional_multiplier : Nat
  proportional_exponent : Nat
  integral_multiplier : Nat
  integral_exponent : Nat
  derivative_multiplier : Nat
  derivative_exponent : Nat
  pid_period : Nat
  integral_divider_exponent : Nat
  integral_limit : Nat
  reset_integral : Bool
  pwm_frequency : Nat
  current_samples_exponent : Nat
  hard_overcurrent_threshold : Nat
  current_offset_calibration : Int
  current_scale_calibration : Int
  motor_invert : Bool
  max_duty_cycle_while_feedback_out_of_range : Nat
  max_acceleration_forward : Nat
  max_acceleration_reverse : Nat
  max_deceleration_forward : Nat
  max_deceleration_reverse : Nat
  max_duty_cycle_forward : Nat
  max_duty_cycle_reverse : Nat
  encoded_hard_current_limit_forward : Nat
  encoded_hard_current_limit_reverse : Nat
  brake_duration_forward : Nat
  brake_duration_reverse : Nat
  soft_current_limit_forward : Nat
  soft_current_limit_reverse : Nat
  soft_current_regulation_level_forward : Nat
  soft_current_regulation_level_reverse : Nat
  coast_when_off : Bool
  error_enable : Nat
  error_latch : Nat
  error_hard : Nat
  vin_calibration : Int
  disable_i2c_pullups : Bool
  analog_sda_pullup : Bool
  always_analog_sda : Bool
  always_analog_fba : Bool
  fbt_method : Nat
  fbt_timing_clock : Nat
  fbt_timing_polarity : Bool
  fbt_timing_timeout : Nat
  fbt_samples : Nat
  fbt_divider_exponent : Nat

/-- One emitted line of the settings file: each `jrk_sprintf` call in
`jrk_settings_to_string` appends either a `"# ..."` comment line or one
`"key: value"` line, always `\n`-terminated. -/
inductive jrk_line where
| comment (text : String)
| field (key value : String)
deriving DecidableEq, Repr

def jrk_line.render : jrk_line → String
| .comment t => "# " ++ t ++ "\n"
| .field k v => k ++ ": " ++ v ++ "\n"

/-- The key of a field line. -/
def jrk_line.key? : jrk_line → Option String
| .comment _ => none
| .field k _ => some k

def jrk_line.is_comment : jrk_line → Bool
| .comment _ => true
| .field _ _ => false

/-- `jrk_settings_to_string`, body: the exact sequence of lines the
source emits, in source order, with the three `product != JRK_PRODUCT_UMC06A`
gates and the two `product == JRK_PRODUCT_UMC06A` gates in their source
positions.  Unsigned fields are printed with `%u`, the `int16_t`
calibration fields with `%d`, booleans as `true`/`false`, enumerated
fields via `jrk_code_to_name`. -/
def jrk_settings_to_lines (s : jrk_settings) : List jrk_line :=
  [ .comment "Pololu jrk settings file.",
    .comment DOCUMENTATION_URL,
    .field "product" (jrk_look_up_product_name_short s.product),
    .field "input_mode" (jrk_code_to_name jrk_input_mode_names_short s.input_mode),
    .field "input_error_minimum" (toString s.input_error_minimum),
    .field "input_error_maximum" (toString s.input_error_maximum),
    .field "input_minimum" (toString s.input_minimum),
    .field "input_maximum" (toString s.input_maximum),
    .field "input_neutral_minimum" (toString s.input_neutral_minimum),
    .field "input_neutral_maximum" (toString s.input_neutral_maximum),
    .field "output_minimum" (toString s.output_minimum),
    .field "output_neutral" (toString s.output_neutral),
    .field "output_maximum" (toString s.output_maximum),
    .field "input_invert" (if s.input_invert then "true" else "false"),
    .field "input_scaling_degree"
      (jrk_code_to_name jrk_input_scaling_degree_names_short s.input_scaling_degree),
    .field "input_detect_disconnect" (if s.input_detect_disconnect then "true" else "false"),
    .field "input_analog_samples_exponent" (toString s.input_analog_samples_exponent),
    .field "feedback_mode" (jrk_code_to_name jrk_feedback_mode_names_short s.feedback_mode),
    .field "feedback_error_minimum" (toString s.feedback_error_minimum),
    .field "feedback_error_maximum" (toString s.feedback_error_maximum),
    .field "feedback_minimum" (toString s.feedback_minimum),
    .field "feedback_maximum" (toString s.feedback_maximum),
    .field "feedback_invert" (if s.feedback_invert then "true" else "false"),
    .field "feedback_detect_disconnect"
      (if s.feedback_detect_disconnect then "true" else "false"),
    .field "feedback_dead_zone" (toString s.feedback_dead_zone),
    .field "feedback_analog_samples_exponent" (toString s.feedback_analog_samples_exponent),
    .field "feedback_wraparound" (if s.feedback_wraparound then "true" else "false"),
    .field "serial_mode" (jrk_code_to_name jrk_serial_mode_names_short s.serial_mode),
    .field "serial_baud_rate" (toString s.serial_baud_rate),
    .field "serial_timeout" (toString s.serial_timeout),
    .field "serial_device_number" (toString s.serial_device_number),
    .field "never_sleep" (if s.never_sleep then "true" else "false"),
    .field "serial_enable_crc" (if s.serial_enable_crc then "true" else "false"),
    .field "serial_enable_14bit_device_number"
      (if s.serial_enable_14bit_device_number then "true" else "false"),
    .field "serial_disable_compact_protocol"
      (if s.serial_disable_compact_protocol then "true" else "false"),
    .field "proportional_multiplier" (toString s.proportional_multiplier),
    .field "proportional_exponent" (toString s.proportional_exponent),
    .field "integral_multiplier" (toString s.integral_multiplier),
    .field "integral_exponent" (toString s.integral_exponent),
    .field "derivative_multiplier" (toString s.derivative_multiplier),
    .field "derivative_exponent" (toString s.derivative_exponent),
    .field "pid_period" (toString s.pid_period),
    .field "integral_divider_exponent" (toString s.integral_divider_exponent),
    .field "integral_limit" (toString s.integral_limit),
    .field "reset_integral" (if s.reset_integral then "true" else "false"),
    .field "pwm_frequency" (jrk_code_to_name jrk_pwm_frequency_names_short s.pwm_frequency),
    .field "current_samples_exponent" (toString s.current_samples_exponent) ]
  ++ (if s.product ≠ JRK_PRODUCT_UMC06A then
      [jrk_line.field "hard_overcurrent_threshold" (toString s.hard_overcurrent_threshold)]
      else [])
  ++ [ .field "current_offset_calibration" (toString s.current_offset_calibration),
    .field "current_scale_calibration" (toString s.current_scale_calibration),
    .field "motor_invert" (if s.motor_invert then "true" else "false"),
    .field "max_duty_cycle_while_feedback_out_of_range"
      (toString s.max_duty_cycle_while_feedback_out_of_range),
    .field "max_acceleration_forward" (toString s.max_acceleration_forward),
    .field "max_acceleration_reverse" (toString s.max_acceleration_reverse),
    .field "max_deceleration_forward" (toString s.max_deceleration_forward),
    .field "max_deceleration_reverse" (toString s.max_deceleration_reverse),
    .field "max_duty_cycle_forward" (toString s.max_duty_cycle_forward),
    .field "max_duty_cycle_reverse" (toString s.max_duty_cycle_reverse) ]
  ++ (if s.product ≠ JRK_PRODUCT_UMC06A then
      [jrk_line.field "encoded_hard_current_limit_forward"
        (toString s.encoded_hard_current_limit_forward)]
      else [])
  ++ (if s.product ≠ JRK_PRODUCT_UMC06A then
      [jrk_line.field "encoded_hard_current_limit_reverse"
        (toString s.encoded_hard_current_limit_reverse)]
      else [])
  ++ [ .field "brake_duration_forward" (toString s.brake_duration_forward),
    .field "brake_duration_reverse" (toString s.brake_duration_reverse),
    .field "soft_current_limit_forward" (toString s.soft_current_limit_forward),
    .field "soft_current_limit_reverse" (toString s.soft_current_limit_reverse) ]
  ++ (if s.product = JRK_PRODUCT_UMC06A then
      [jrk_line.field "soft_current_regulation_level_forward"
        (toString s.soft_current_regulation_level_forward)]
      else [])
  ++ (if s.product = JRK_PRODUCT_UMC06A then
      [jrk_line.field "soft_current_regulation_level_reverse"
        (toString s.soft_current_regulation_level_reverse)]
      else [])
  ++ [ .field "coast_when_off" (if s.coast_when_off then "true" else "false"),
    .field "error_enable" (toString s.error_enable),
    .field "error_latch" (toString s.error_latch),
    .field "error_hard" (toString s.error_hard),
    .field "vin_calibration" (toString s.vin_calibration),
    .field "disable_i2c_pullups" (if s.disable_i2c_pullups then "true" else "false"),
    .field "analog_sda_pullup" (if s.analog_sda_pullup then "true" else "false"),
    .field "always_analog_sda" (if s.always_analog_sda then "true" else "false"),
    .field "always_analog_fba" (if s.always_analog_fba then "true" else "false"),
    .field "fbt_method" (jrk_code_to_name jrk_fbt_method_names_short s.fbt_method),
    .field "fbt_timing_clock"
      (jrk_code_to_name jrk_fbt_timing_clock_names_short s.fbt_timing_clock),
    .field "fbt_timing_polarity" (if s.fbt_timing_polarity then "true" else "false"),
    .field "fbt_timing_timeout" (toString s.fbt_timing_timeout),
    .field "fbt_samples" (toString s.fbt_samples),
    .field "fbt_divider_exponent" (toString s.fbt_divider_exponent) ]

/-- `jrk_settings_to_string` on a non-`NULL` settings object: the
concatenation of the rendered lines (the `jrk_string`/`jrk_sprintf`
accumulator). -/
def jrk_settings_to_string (s : jrk_settings) : String :=
  String.join ((jrk_settings_to_lines s).map jrk_line.render)

/-! ## The PID constant control (`pid_constant_control.cpp`)

`set_constant()` computes `constant = multiplier / 2^exponent` in
`double` and renders it with `QString::number(constant, 'f', precision)`.
For the widget's domain (`multiplier` in 0..1023, `exponent` in 0..18,
set by the two spinboxes) the value is a dyadic rational with at most 10
significand bits, so every intermediate `double` is exact and the
comparison against the literal `0.0001` agrees with the comparison
against the rational 1/10000 (the nearest representable doubles around
`0.0001` differ from it by ≈5e-21 while the coarsest value grid in play
is spaced 2^-18 ≈ 3.8e-6, so no representable value of
`multiplier / 2^exponent` separates them).  Fixed-notation rendering of
an exactly-representable value is correct rounding of that rational to
`precision` decimal digits, ties to even. -/

/-- The exact value `multiplier / 2^exponent` computed by the loop of
repeated halvings in `set_constant`. -/
def pid_constant_value (multiplier exponent : Nat) : ℚ :=
  (multiplier : ℚ) / 2 ^ exponent

/-- Round `num / den` to the nearest integer, ties to even. -/
def round_half_even (num den : Nat) : Nat :=
  let q := num / den
  let r := num % den
  if 2 * r < den then q
  else if den < 2 * r then q + 1
  else if q % 2 = 0 then q else q + 1

/-- The `prec` decimal digits of the fraction value `n` (with
`n < 10^prec`), least-significant first. -/
def frac_digit_chars : Nat → Nat → List Char
| 0, _ => []
| p + 1, n => Nat.digitChar (n % 10) :: frac_digit_chars p (n / 10)

/-- `QString::number(value, 'f', prec)` for the exact dyadic value
`multiplier / 2^exponent`: the correctly rounded fixed-point decimal
string with exactly `prec` digits after the point (ties to even). -/
def qstring_number_f (multiplier exponent prec : Nat) : String :=
  let scaled := round_half_even (multiplier * 10 ^ prec) (2 ^ exponent)
  toString (scaled / 10 ^ prec) ++ "." ++
    String.mk (frac_digit_chars prec (scaled % 10 ^ prec)).reverse

/-- `pid_constant_control::set_constant()`: the text written into the
constant line edit.
`int precision = (constant < 0.0001 && constant != 0) ? 7 : 5;` — the
`double` comparisons are stated over the integers
(`constant < 0.0001  ⟺  10000 * multiplier < 2^exponent`, exactly, per
the header comment of this section); the equivalence with the rational
condition on `pid_constant_value` is proved in
`set_constant_precision_condition`. -/
def set_constant (multiplier exponent : Nat) : String :=
  let precision :=
    if 10000 * multiplier < 2 ^ exponent ∧ multiplier ≠ 0 then 7 else 5
  qstring_number_f multiplier exponent precision

/-- Number of characters after the final `.` of a rendered decimal. -/
def decimal_places (s : String) : Nat :=
  (s.data.reverse.takeWhile (fun c => c ≠ '.')).length

/-! ## Concrete objects used by witnesses -/

/-- The variables object decoded from an all-zero buffer. -/
def zero_variables : jrk_variables :=
  write_buffer_to_variables (fun _ => 0)

/-- A concrete settings object (all fields zero, product code 1). -/
def example_settings : jrk_settings where
  product := JRK_PRODUCT_UMC04A_30V
  input_mode := 0
  input_error_minimum := 0
  input_error_maximum := 0
  input_minimum := 0
  input_maximum := 0
  input_neutral_minimum := 0
  input_neutral_maximum := 0
  output_minimum := 0
  output_neutral := 0
  output_maximum := 0
  input_invert := false
  input_scaling_degree := 0
  input_detect_disconnect := false
  input_analog_samples_exponent := 0
  feedback_mode := 0
  feedback_error_minimum := 0
  feedback_error_maximum := 0
  feedback_minimum := 0
  feedback_maximum := 0
  feedback_invert := false
  feedback_detect_disconnect := false
  feedback_dead_zone := 0
  feedback_analog_samples_exponent := 0
  feedback_wraparound := false
  serial_mode := 0
  serial_baud_rate := 0
  serial_timeout := 0
  serial_device_number := 0
  never_sleep := false
  serial_enable_crc := false
  serial_enable_14bit_device_number := false
  serial_disable_compact_protocol := false
  proportional_multiplier := 0
  proportional_exponent := 0
  integral_multiplier := 0
  integral_exponent := 0
  derivative_multiplier := 0
  derivative_exponent := 0
  pid_period := 0
  integral_divider_exponent := 0
  integral_limit := 0
  reset_integral := false
  pwm_frequency := 0
  current_samples_exponent := 0
  hard_overcurrent_threshold := 0
  current_offset_calibration := 0
  current_scale_calibration := 0
  motor_invert := false
  max_duty_cycle_while_feedback_out_of_range := 0
  max_acceleration_forward := 0
  max_acceleration_reverse := 0
  max_deceleration_forward := 0
  max_deceleration_reverse := 0
  max_duty_cycle_forward := 0
  max_duty_cycle_reverse := 0
  encoded_hard_current_limit_forward := 0
  encoded_hard_current_limit_reverse := 0
  brake_duration_forward := 0
  brake_duration_reverse := 0
  soft_current_limit_forward := 0
  soft_current_limit_reverse := 0
  soft_current_regulation_level_forward := 0
  soft_current_regulation_level_reverse := 0
  coast_when_off := false
  error_enable := 0
  error_latch := 0
  error_hard := 0
  vin_calibration := 0
  disable_i2c_pullups := false
  analog_sda_pullup := false
  always_analog_sda := false
  always_analog_fba := false
  fbt_method := 0
  fbt_timing_clock := 0
  fbt_timing_polarity := false
  fbt_timing_timeout := 0
  fbt_samples := 0
  fbt_divider_exponent := 0

/-! ## Spec-side description of the settings file keys (for the
refinement claim about product gating) -/

/-- The fixed canonical key order of the settings file, per the spec:
every `key: value` line `jrk_settings_to_string` can emit, in declaration
order. -/
def jrk_settings_field_keys : List String :=
  [ "product",
    "input_mode", "input_error_minimum", "input_error_maximum",
    "input_minimum", "input_maximum", "input_neutral_minimum",
    "input_neutral_maximum", "output_minimum", "output_neutral",
    "output_maximum", "input_invert", "input_scaling_degree",
    "input_detect_disconnect", "input_analog_samples_exponent",
    "feedback_mode", "feedback_error_minimum", "feedback_error_maximum",
    "feedback_minimum", "feedback_maximum", "feedback_invert",
    "feedback_detect_disconnect", "feedback_dead_zone",
    "feedback_analog_samples_exponent", "feedback_wraparound",
    "serial_mode", "serial_baud_rate", "serial_timeout",
    "serial_device_number", "never_sleep", "serial_enable_crc",
    "serial_enable_14bit_device_number", "serial_disable_compact_protocol",
    "proportional_multiplier", "proportional_exponent",
    "integral_multiplier", "integral_exponent", "derivative_multiplier",
    "derivative_exponent", "pid_period", "integral_divider_exponent",
    "integral_limit", "reset_integral", "pwm_frequency",
    "current_samples_exponent", "hard_overcurrent_threshold",
    "current_offset_calibration", "current_scale_calibration",
    "motor_invert", "max_duty_cycle_while_feedback_out_of_range",
    "max_acceleration_forward", "max_acceleration_reverse",
    "max_deceleration_forward", "max_deceleration_reverse",
    "max_duty_cycle_forward", "max_duty_cycle_reverse",
    "encoded_hard_current_limit_forward", "encoded_hard_current_limit_reverse",
    "brake_duration_forward", "brake_duration_reverse",
    "soft_current_limit_forward", "soft_current_limit_reverse",
    "soft_current_regulation_level_forward",
    "soft_current_regulation_level_reverse",
    "coast_when_off", "error_enable", "error_latch", "error_hard",
    "vin_calibration", "disable_i2c_pullups", "analog_sda_pullup",
    "always_analog_sda", "always_analog_fba", "fbt_method",
    "fbt_timing_clock", "fbt_timing_polarity", "fbt_timing_timeout",
    "fbt_samples", "fbt_divider_exponent" ]

/-- The keys present only when the product is not `JRK_PRODUCT_UMC06A`. -/
def jrk_keys_not_umc06a : List String :=
  [ "hard_overcurrent_threshold",
    "encoded_hard_current_limit_forward",
    "encoded_hard_current_limit_reverse" ]

/-- The keys present only when the product is `JRK_PRODUCT_UMC06A`. -/
def jrk_keys_only_umc06a : List String :=
  [ "soft_current_regulation_level_forward",
    "soft_current_regulation_level_reverse" ]

/-- Spec-side product gating predicate: which keys appear for a given
product code. -/
def jrk_key_enabled (product : Nat) (k : String) : Bool :=
  if jrk_keys_not_umc06a.contains k then product != JRK_PRODUCT_UMC06A
  else if jrk_keys_only_umc06a.contains k then product == JRK_PRODUCT_UMC06A
  else true

/-- The keys of the field lines actually emitted, in emission order. -/
def jrk_emitted_keys (s : jrk_settings) : List String :=
  (jrk_settings_to_lines s).filterMap jrk_line.key?

/-- Error-code constants from the `jrk_error_code` enum in `jrk.h`. -/
def JRK_ERROR_MEMORY : Nat := 1
def JRK_ERROR_ACCESS_DENIED : Nat := 2
def JRK_ERROR_TIMEOUT : Nat := 3
def JRK_ERROR_DEVICE_DISCONNECTED : Nat := 4

/-- A concrete lower-level transport error carrying a categorical code. -/
def timeout_error : jrk_error :=
  { message := "The device took too long to respond.",
    codes := [JRK_ERROR_TIMEOUT] }

/-- A handle whose segment read always fails with `timeout_error`. -/
def failing_handle : jrk_handle :=
  { segment_read := fun _ => .error timeout_error }

/-- A handle whose segment read always delivers the all-zero buffer. -/
def ok_handle : jrk_handle :=
  { segment_read := fun _ => .ok (fun _ => 0) }

/-! ## Theorems -/

lemma int16_of_int_range (z : Int) :
    -32768 ≤ int16_of_int z ∧ int16_of_int z < 32768 := by
  unfold int16_of_int
  split <;> omega

lemma int16_of_int_emod (z : Int) : (int16_of_int z - z) % 65536 = 0 := by
  unfold int16_of_int
  split <;> omega

/-- **C1** (corrected): with a `NULL` variables pointer every getter of the
variables model returns the zero value of its return type — except
`jrk_variables_get_analog_reading`, which returns the unavailable
sentinel `0xFFFF` (the source guard is
`if (variables == NULL || pin >= JRK_CONTROL_PIN_COUNT) { return 0xFFFF; }`);
no getter can fail. -/
theorem C1_null_getter_values (pin : Nat) :
    jrk_variables_get_input none = 0 ∧
    jrk_variables_get_target none = 0 ∧
    jrk_variables_get_feedback none = 0 ∧
    jrk_variables_get_scaled_feedback none = 0 ∧
    jrk_variables_get_integral none = 0 ∧
    jrk_variables_get_duty_cycle_target none = 0 ∧
    jrk_variables_get_duty_cycle none = 0 ∧
    jrk_variables_get_current_low_res none = 0 ∧
    jrk_variables_get_pid_period_exceeded none = false ∧
    jrk_variables_get_pid_period_count none = 0 ∧
    jrk_variables_get_error_flags_halting none = 0 ∧
    jrk_variables_get_error_flags_occurred none = 0 ∧
    jrk_variables_get_vin_voltage none = 0 ∧
    jrk_variables_get_current none = 0 ∧
    jrk_variables_get_device_reset none = 0 ∧
    jrk_variables_get_up_time none = 0 ∧
    jrk_variables_get_rc_pulse_width none = 0 ∧
    jrk_variables_get_fbt_reading none = 0 ∧
    jrk_variables_get_raw_current none = 0 ∧
    jrk_variables_get_encoded_hard_current_limit none = 0 ∧
    jrk_variables_get_last_duty_cycle none = 0 ∧
    jrk_variables_get_current_chopping_consecutive_count none = 0 ∧
    jrk_variables_get_current_chopping_occurrence_count none = 0 ∧
    jrk_variables_get_error none = 0 ∧
    jrk_variables_get_force_mode none = 0 ∧
    jrk_variables_get_digital_reading none pin = false ∧
    jrk_variables_get_pin_state none pin = 0 ∧
    jrk_variables_get_analog_reading none pin = 0xFFFF :=
  ⟨rfl, rfl, rfl, rfl, rfl, rfl, rfl, rfl, rfl, rfl, rfl, rfl, rfl, rfl,
   rfl, rfl, rfl, rfl, rfl, rfl, rfl, rfl, rfl, rfl, rfl, rfl, rfl, rfl⟩

/-- **C1** counterexample: `jrk_variables_get_analog_reading` on a `NULL`
variables pointer returns `0xFFFF`, not the zero value `0` of `uint16_t`,
so the claim as stated fails for that getter. -/
theorem C1_counterexample :
    jrk_variables_get_analog_reading none 0 = 0xFFFF ∧ (0xFFFF : Nat) ≠ 0 := by
  decide

/-- **C3** (confirmed): `jrk_variables_get_error` on a non-`NULL` object is
the signed 16-bit reinterpretation of `scaled_feedback - target`: it
always lies in the `int16_t` range, is congruent to the exact difference
mod 2^16, and is recomputed from exactly those two stored fields (any
object agreeing on them has the same error; there is no cached error
field in `struct jrk_variables`). -/
theorem C3_get_error_derived (v : jrk_variables) :
    jrk_variables_get_error (some v)
      = int16_of_int ((v.scaled_feedback : Int) - (v.target : Int)) ∧
    -32768 ≤ jrk_variables_get_error (some v) ∧
    jrk_variables_get_error (some v) < 32768 ∧
    (jrk_variables_get_error (some v)
      - ((v.scaled_feedback : Int) - (v.target : Int))) % 65536 = 0 ∧
    (∀ w : jrk_variables, w.scaled_feedback = v.scaled_feedback →
      w.target = v.target →
      jrk_variables_get_error (some w) = jrk_variables_get_error (some v)) := by
  refine ⟨rfl, (int16_of_int_range _).1, (int16_of_int_range _).2,
    int16_of_int_emod _, ?_⟩
  intro w h1 h2
  simp [jrk_variables_get_error, h1, h2]

/-- Witness for C3: the general theorem applied at the zero-decoded
variables object, discharging the field-agreement hypotheses with `rfl`
at an object differing elsewhere. -/
theorem C3_get_error_derived_witness :
    jrk_variables_get_error (some zero_variables)
      = int16_of_int ((zero_variables.scaled_feedback : Int)
          - (zero_variables.target : Int)) ∧
    jrk_variables_get_error (some { zero_variables with input := 5 })
      = jrk_variables_get_error (some zero_variables) :=
  ⟨(C3_get_error_derived zero_variables).1,
   (C3_get_error_derived zero_variables).2.2.2.2
     { zero_variables with input := 5 } rfl rfl⟩

/-- **C9** (confirmed): the per-pin getters are total over all `uint8_t`
pin numbers: on a non-`NULL` object, `jrk_variables_get_analog_reading`
returns `0xFFFF` and `jrk_variables_get_digital_reading` returns `false`
for every pin `>= JRK_CONTROL_PIN_COUNT` (8), while
`jrk_variables_get_pin_state` returns `0` already for every pin
`>= PIN_COUNT` (5); for in-range pins each getter reads the `pin_info`
entry through a bounds-checked (`Fin`) index, so no access is out of
bounds — and pins 5–7 are accepted by the analog/digital getters but
rejected by the pin-state getter. -/
theorem C9_pin_getters_total (v : jrk_variables) (pin : Nat)
    (_hpin : pin < 256) :
    (JRK_CONTROL_PIN_COUNT ≤ pin →
      jrk_variables_get_analog_reading (some v) pin = 0xFFFF ∧
      jrk_variables_get_digital_reading (some v) pin = false) ∧
    (PIN_COUNT ≤ pin → jrk_variables_get_pin_state (some v) pin = 0) ∧
    (∀ h : pin < JRK_CONTROL_PIN_COUNT,
      jrk_variables_get_analog_reading (some v) pin
        = (v.pin_info ⟨pin, h⟩).analog_reading ∧
      jrk_variables_get_digital_reading (some v) pin
        = (v.pin_info ⟨pin, h⟩).digital_reading) := by
  refine ⟨?_, ?_, ?_⟩
  · intro h8
    constructor
    · simp only [jrk_variables_get_analog_reading]
      rw [dif_neg (Nat.not_lt.mpr h8)]
    · simp only [jrk_variables_get_digital_reading]
      rw [dif_neg (Nat.not_lt.mpr h8)]
  · intro h5
    simp only [jrk_variables_get_pin_state]
    rw [dif_neg (Nat.not_lt.mpr h5)]
  · intro h
    constructor
    · simp only [jrk_variables_get_analog_reading]
      rw [dif_pos h]
    · simp only [jrk_variables_get_digital_reading]
      rw [dif_pos h]

/-- Witness for C9: concrete out-of-range pins 8 (all getters) and 5
(pin-state getter only), and the in-range access at pin 7. -/
theorem C9_pin_getters_total_witness :
    jrk_variables_get_analog_reading (some zero_variables) 8 = 0xFFFF ∧
    jrk_variables_get_pin_state (some zero_variables) 5 = 0 ∧
    jrk_variables_get_digital_reading (some zero_variables) 7
      = (zero_variables.pin_info ⟨7, by decide⟩).digital_reading :=
  ⟨((C9_pin_getters_total zero_variables 8 (by decide)).1 (by decide)).1,
   (C9_pin_getters_total zero_variables 5 (by decide)).2.1 (by decide),
   ((C9_pin_getters_total zero_variables 7 (by decide)).2.2 (by decide)).2⟩

/-- **C10** (confirmed): `jrk_variables_copy` with a non-`NULL` `dest`
pointer and a `NULL` source succeeds and writes `NULL` into `*dest`; a
`NULL` `dest` pointer yields an explicit error; every error path leaves
`*dest` `NULL`; and a non-`NULL` copy is delivered exactly when the call
succeeds on a non-`NULL` source. -/
theorem C10_copy_contract (src : Option jrk_variables) (v : jrk_variables) :
    jrk_variables_copy none true = (none, none) ∧
    jrk_variables_copy src false
      = (some (jrk_error_create "Variables output pointer is null."), none) ∧
    ((jrk_variables_copy src true).1 ≠ none →
      (jrk_variables_copy src true).2 = none) ∧
    ((∃ w, (jrk_variables_copy src true).2 = some w) ↔
      ((jrk_variables_copy src true).1 = none ∧ src ≠ none)) ∧
    jrk_variables_copy (some v) true = (none, some v) := by
  cases src <;> simp [jrk_variables_copy]

/-- Witness for C10: a copy of a concrete non-null source delivers an
object, via the delivered-iff-success conjunct. -/
theorem C10_copy_contract_witness :
    ∃ w, (jrk_variables_copy (some zero_variables) true).2 = some w :=
  ((C10_copy_contract (some zero_variables) zero_variables).2.2.2.1).mpr
    ⟨rfl, by simp⟩

set_option maxRecDepth 4000 in
lemma byte_shift_and_one : ∀ b < 256, ∀ j < 8, b >>> j &&& 1 = b / 2 ^ j % 2 := by
  decide

set_option maxRecDepth 4000 in
lemma byte_and_three : ∀ b < 256, b &&& 3 = b % 4 := by
  decide

/-- **C2** (confirmed): decoding any byte buffer hard-wires the analog
reading of every pin other than SDA and FBA to the sentinel `0xFFFF`,
takes the SDA and FBA analog readings from the buffer, and decoding the
all-zero buffer yields the all-zero variables object (every numeric
field `0`, every boolean `false`, `force_mode = 0`, every digital
reading `0` and every pin state `0`), except those hard-wired `0xFFFF`
analog readings. -/
theorem C2_decode_analog_and_zero_buffer (buf : Nat → Nat)
    (_hbuf : ∀ i, buf i < 256) :
    (∀ i : Fin JRK_CONTROL_PIN_COUNT,
      i ≠ JRK_PIN_NUM_SDA → i ≠ JRK_PIN_NUM_FBA →
      ((write_buffer_to_variables buf).pin_info i).analog_reading = 0xFFFF) ∧
    ((write_buffer_to_variables buf).pin_info JRK_PIN_NUM_SDA).analog_reading
      = read_uint16_t buf JRK_VAR_ANALOG_READING_SDA ∧
    ((write_buffer_to_variables buf).pin_info JRK_PIN_NUM_FBA).analog_reading
      = read_uint16_t buf JRK_VAR_ANALOG_READING_FBA ∧
    (zero_variables.input = 0 ∧ zero_variables.target = 0 ∧
     zero_variables.feedback = 0 ∧ zero_variables.scaled_feedback = 0 ∧
     zero_variables.integral = 0 ∧ zero_variables.duty_cycle_target = 0 ∧
     zero_variables.duty_cycle = 0 ∧ zero_variables.current_low_res = 0 ∧
     zero_variables.pid_period_exceeded = false ∧
     zero_variables.pid_period_count = 0 ∧
     zero_variables.error_flags_halting = 0 ∧
     zero_variables.error_flags_occurred = 0 ∧
     zero_variables.vin_voltage = 0 ∧ zero_variables.current = 0 ∧
     zero_variables.device_reset = 0 ∧ zero_variables.up_time = 0 ∧
     zero_variables.rc_pulse_width = 0 ∧ zero_variables.fbt_reading = 0 ∧
     zero_variables.raw_current = 0 ∧
     zero_variables.encoded_hard_current_limit = 0 ∧
     zero_variables.last_duty_cycle = 0 ∧
     zero_variables.current_chopping_consecutive_count = 0 ∧
     zero_variables.current_chopping_occurrence_count = 0 ∧
     zero_variables.force_mode = 0) ∧
    (∀ i : Fin JRK_CONTROL_PIN_COUNT,
      (zero_variables.pin_info i).digital_reading = false ∧
      (zero_variables.pin_info i).pin_state = 0) ∧
    (zero_variables.pin_info JRK_PIN_NUM_SDA).analog_reading = 0 ∧
    (zero_variables.pin_info JRK_PIN_NUM_FBA).analog_reading = 0 ∧
    (∀ i : Fin JRK_CONTROL_PIN_COUNT,
      i ≠ JRK_PIN_NUM_SDA → i ≠ JRK_PIN_NUM_FBA →
      (zero_variables.pin_info i).analog_reading = 0xFFFF) := by
  refine ⟨?_, rfl, rfl, by decide, by decide, by decide, by decide, by decide⟩
  intro i h1 h2
  simp only [write_buffer_to_variables]
  rw [if_neg h1, if_neg h2]

/-- Witness for C2: the all-zero buffer, and the hard-wired sentinel on
pin SCL. -/
theorem C2_decode_analog_and_zero_buffer_witness :
    ((write_buffer_to_variables (fun _ => 0)).pin_info
      JRK_PIN_NUM_SCL).analog_reading = 0xFFFF :=
  (C2_decode_analog_and_zero_buffer (fun _ => 0)
    (fun _ => by norm_num)).1 JRK_PIN_NUM_SCL (by decide) (by decide)

/-- **C4** (confirmed): for every byte buffer and every control pin `i`,
the decoded digital reading of pin `i` is bit `i` of the
digital-readings byte (`(byte >> i) & 1`), and the decoded `force_mode`
is the low 2 bits of flag byte 1. -/
theorem C4_digital_bitmap_and_force_mode (buf : Nat → Nat)
    (hbuf : ∀ i, buf i < 256) (i : Fin JRK_CONTROL_PIN_COUNT) :
    (((write_buffer_to_variables buf).pin_info i).digital_reading = true ↔
      buf JRK_VAR_DIGITAL_READINGS / 2 ^ (i : Nat) % 2 = 1) ∧
    (write_buffer_to_variables buf).force_mode
      = buf JRK_VAR_FLAG_BYTE1 % 4 := by
  constructor
  · simp only [write_buffer_to_variables]
    rw [byte_shift_and_one _ (hbuf _) _ i.isLt]
    simp
  · simp only [write_buffer_to_variables]
    exact byte_and_three _ (hbuf _)

/-- Witness for C4: a concrete buffer whose digital-readings byte is 255
and whose flag byte is 255, at pin FBT. -/
theorem C4_digital_bitmap_and_force_mode_witness :
    (((write_buffer_to_variables (fun _ => 255)).pin_info
        JRK_PIN_NUM_FBT).digital_reading = true ↔
      (255 : Nat) / 2 ^ (7 : Nat) % 2 = 1) ∧
    (write_buffer_to_variables (fun _ => 255)).force_mode = 255 % 4 :=
  C4_digital_bitmap_and_force_mode (fun _ => 255)
    (fun _ => by norm_num) JRK_PIN_NUM_FBT

/-- **C7** (confirmed, against the spec-modelled transport):
`jrk_get_variables` delivers a freshly decoded variables object into
`*variables` exactly when it returns success; on any failure `*variables`
stays `NULL`; a lower-level segment-read failure is returned wrapped with
the contextual sentence "There was an error reading variables from the
device." in front of the original message, with the original categorical
codes preserved; and a `NULL` handle or `NULL` output pointer produces an
explicit error. -/
theorem C7_get_variables_contract (h : jrk_handle) (hh : Option jrk_handle)
    (e : jrk_error) (buf : Nat → Nat) (flags : Nat) :
    ((jrk_get_variables (some h) true flags).1 = none ↔
      ∃ v, (jrk_get_variables (some h) true flags).2 = some v) ∧
    ((jrk_get_variables (some h) true flags).1 ≠ none →
      (jrk_get_variables (some h) true flags).2 = none) ∧
    (h.segment_read flags = .ok buf →
      jrk_get_variables (some h) true flags
        = (none, some (write_buffer_to_variables buf))) ∧
    (h.segment_read flags = .error e →
      jrk_get_variables (some h) true flags
        = (some (jrk_error_add e
            "There was an error reading variables from the device."), none) ∧
      (jrk_get_variables (some h) true flags).1 = some
        { message := "There was an error reading variables from the device."
            ++ "  " ++ e.message,
          codes := e.codes }) ∧
    jrk_get_variables none true flags
      = (some (jrk_error_create "Handle is null."), none) ∧
    jrk_get_variables hh false flags
      = (some (jrk_error_create "Variables output pointer is null."), none) := by
  cases hs : h.segment_read flags <;>
    simp [jrk_get_variables, jrk_error_add, jrk_error_create, hs] <;>
    rintro rfl <;> simp

/-- Witness for C7: the wrap at a concrete failing handle carrying the
timeout code, and the delivery at a concrete succeeding handle. -/
theorem C7_get_variables_contract_witness :
    jrk_get_variables (some failing_handle) true 0
      = (some (jrk_error_add timeout_error
          "There was an error reading variables from the device."), none) ∧
    jrk_get_variables (some ok_handle) true 0
      = (none, some (write_buffer_to_variables (fun _ => 0))) :=
  ⟨((C7_get_variables_contract failing_handle none timeout_error
      (fun _ => 0) 0).2.2.2.1 rfl).1,
   (C7_get_variables_contract ok_handle none timeout_error
      (fun _ => 0) 0).2.2.1 rfl⟩

lemma jrk_key_enabled_of_ne (p : Nat) (hp : p ≠ JRK_PRODUCT_UMC06A) :
    jrk_key_enabled p = jrk_key_enabled JRK_PRODUCT_UMC04A_30V := by
  funext k
  simp only [jrk_key_enabled]
  have h1 : (p != JRK_PRODUCT_UMC06A) = true := by simp [hp]
  have h2 : (p == JRK_PRODUCT_UMC06A) = false := by simp [hp]
  rw [h1, h2]
  split
  · decide
  · split
    · decide
    · rfl

lemma jrk_emitted_keys_eq_filter (s : jrk_settings) :
    jrk_emitted_keys s
      = jrk_settings_field_keys.filter (jrk_key_enabled s.product) := by
  by_cases hp : s.product = JRK_PRODUCT_UMC06A
  · simp only [jrk_emitted_keys, jrk_settings_to_lines, hp, ne_eq,
      not_true_eq_false, if_false, ite_true, ite_false, if_true,
      List.filterMap_append, List.filterMap_cons, List.filterMap_nil,
      jrk_line.key?]
    decide
  · rw [jrk_key_enabled_of_ne s.product hp]
    simp only [jrk_emitted_keys, jrk_settings_to_lines, hp, ne_eq,
      not_false_eq_true, if_false, ite_true, ite_false, if_true,
      List.filterMap_append, List.filterMap_cons, List.filterMap_nil,
      jrk_line.key?]
    decide

/-- **C5** (confirmed): the keys of the `key: value` lines emitted by
`jrk_settings_to_string` are exactly the fixed declaration-order key
list filtered by the product gate: the `hard_overcurrent_threshold` and
two `encoded_hard_current_limit_*` lines appear iff the product is not
`JRK_PRODUCT_UMC06A`, the two `soft_current_regulation_level_*` lines
appear iff it is, and every other field line appears for every product,
in the fixed order. -/
theorem C5_to_string_product_gating (s : jrk_settings) :
    jrk_emitted_keys s
      = jrk_settings_field_keys.filter (jrk_key_enabled s.product) ∧
    ("hard_overcurrent_threshold" ∈ jrk_emitted_keys s ↔
      s.product ≠ JRK_PRODUCT_UMC06A) ∧
    ("encoded_hard_current_limit_forward" ∈ jrk_emitted_keys s ↔
      s.product ≠ JRK_PRODUCT_UMC06A) ∧
    ("encoded_hard_current_limit_reverse" ∈ jrk_emitted_keys s ↔
      s.product ≠ JRK_PRODUCT_UMC06A) ∧
    ("soft_current_regulation_level_forward" ∈ jrk_emitted_keys s ↔
      s.product = JRK_PRODUCT_UMC06A) ∧
    ("soft_current_regulation_level_reverse" ∈ jrk_emitted_keys s ↔
      s.product = JRK_PRODUCT_UMC06A) ∧
    (∀ k ∈ jrk_settings_field_keys, k ∉ jrk_keys_not_umc06a →
      k ∉ jrk_keys_only_umc06a → k ∈ jrk_emitted_keys s) := by
  have hA := jrk_emitted_keys_eq_filter s
  by_cases hp : s.product = JRK_PRODUCT_UMC06A
  · rw [hA, hp]
    refine ⟨rfl, ?_, ?_, ?_, ?_, ?_, ?_⟩ <;> decide
  · rw [hA, jrk_key_enabled_of_ne s.product hp]
    refine ⟨rfl, ?_, ?_, ?_, ?_, ?_, ?_⟩
    · exact ⟨fun _ => hp, fun _ => by decide⟩
    · exact ⟨fun _ => hp, fun _ => by decide⟩
    · exact ⟨fun _ => hp, fun _ => by decide⟩
    · exact ⟨fun hm => absurd hm (by decide), fun hpe => absurd hpe hp⟩
    · exact ⟨fun hm => absurd hm (by decide), fun hpe => absurd hpe hp⟩
    · decide

/-- Witness for C5: for a concrete product-1 settings object the
`hard_overcurrent_threshold` line is present. -/
theorem C5_to_string_product_gating_witness :
    "hard_overcurrent_threshold" ∈ jrk_emitted_keys example_settings :=
  (C5_to_string_product_gating example_settings).2.1.mpr (by decide)

lemma render_ends_with_newline (l : jrk_line) :
    (jrk_line.render l).data.getLast? = some '\n' := by
  cases l <;>
    simp only [jrk_line.render, String.data_append] <;>
    rw [List.getLast?_concat]

lemma render_comment_starts_hash (t : String) :
    (jrk_line.render (.comment t)).data.head? = some '#' := by
  simp [jrk_line.render, String.data_append]

/-- **C6** (confirmed): `jrk_settings_to_string` output begins with two
comment lines (each rendering with a leading `#`), its first non-comment
line is the `product:` line carrying the short product name, every
emitted line's rendering is terminated by a newline character, the
enumerated fields are rendered through the code-to-short-name lookup,
and boolean fields render as the words `true`/`false`. -/
theorem C6_to_string_format (s : jrk_settings) :
    (∃ rest, jrk_settings_to_lines s
      = .comment "Pololu jrk settings file." :: .comment DOCUMENTATION_URL :: rest) ∧
    ((jrk_settings_to_lines s).dropWhile jrk_line.is_comment).head?
      = some (.field "product" (jrk_look_up_product_name_short s.product)) ∧
    (∀ l ∈ jrk_settings_to_lines s,
      (jrk_line.render l).data.getLast? = some '\n') ∧
    (∀ t, (jrk_line.render (.comment t)).data.head? = some '#') ∧
    jrk_line.field "input_mode"
      (jrk_code_to_name jrk_input_mode_names_short s.input_mode)
      ∈ jrk_settings_to_lines s ∧
    jrk_line.field "input_scaling_degree"
      (jrk_code_to_name jrk_input_scaling_degree_names_short s.input_scaling_degree)
      ∈ jrk_settings_to_lines s ∧
    jrk_line.field "feedback_mode"
      (jrk_code_to_name jrk_feedback_mode_names_short s.feedback_mode)
      ∈ jrk_settings_to_lines s ∧
    jrk_line.field "serial_mode"
      (jrk_code_to_name jrk_serial_mode_names_short s.serial_mode)
      ∈ jrk_settings_to_lines s ∧
    jrk_line.field "pwm_frequency"
      (jrk_code_to_name jrk_pwm_frequency_names_short s.pwm_frequency)
      ∈ jrk_settings_to_lines s ∧
    jrk_line.field "fbt_method"
      (jrk_code_to_name jrk_fbt_method_names_short s.fbt_method)
      ∈ jrk_settings_to_lines s ∧
    jrk_line.field "fbt_timing_clock"
      (jrk_code_to_name jrk_fbt_timing_clock_names_short s.fbt_timing_clock)
      ∈ jrk_settings_to_lines s ∧
    jrk_line.field "input_invert"
      (if s.input_invert then "true" else "false") ∈ jrk_settings_to_lines s ∧
    jrk_line.field "motor_invert"
      (if s.motor_invert then "true" else "false") ∈ jrk_settings_to_lines s ∧
    jrk_line.field "coast_when_off"
      (if s.coast_when_off then "true" else "false") ∈ jrk_settings_to_lines s ∧
    (∀ b : Bool, (if b then "true" else "false") = "true" ∨
      (if b then "true" else "false") = "false") := by
  refine ⟨⟨_, rfl⟩, rfl, fun l _ => render_ends_with_newline l,
    render_comment_starts_hash, ?_, ?_, ?_, ?_, ?_, ?_, ?_, ?_, ?_, ?_,
    fun b => by cases b <;> simp⟩ <;>
  · simp [jrk_settings_to_lines, List.mem_append]

/-- Witness for C6: the newline-termination conjunct applied at the
concrete product-1 settings object and its first line. -/
theorem C6_to_string_format_witness :
    (jrk_line.render
      (.comment "Pololu jrk settings file.")).data.getLast? = some '\n' :=
  (C6_to_string_format example_settings).2.2.1
    (.comment "Pololu jrk settings file.")
    (by simp [jrk_settings_to_lines])

lemma frac_digit_chars_length (p : Nat) :
    ∀ n, (frac_digit_chars p n).length = p := by
  induction p with
  | zero => intro n; rfl
  | succ q ih => intro n; simp [frac_digit_chars, ih]

lemma frac_digit_chars_ne_dot (p : Nat) :
    ∀ n, ∀ c ∈ frac_digit_chars p n, c ≠ '.' := by
  have h10 : ∀ m < 10, Nat.digitChar m ≠ '.' := by decide
  induction p with
  | zero => intro n c hc; simp [frac_digit_chars] at hc
  | succ q ih =>
    intro n c hc
    rcases List.mem_cons.mp hc with h | h
    · subst h; exact h10 _ (Nat.mod_lt _ (by norm_num))
    · exact ih _ c h

lemma takeWhile_append_stop {α : Type} (p : α → Bool) (l r : List α) (x : α)
    (hl : ∀ c ∈ l, p c = true) (hx : p x = false) :
    (l ++ x :: r).takeWhile p = l := by
  induction l with
  | nil => simp [List.takeWhile, hx]
  | cons a as ih =>
    simp only [List.cons_append, List.takeWhile]
    rw [hl a (List.mem_cons_self a as)]
    simp only [List.cons.injEq, true_and]
    exact ih (fun c hc => hl c (List.mem_cons_of_mem a hc))

lemma decimal_places_qstring (m e prec : Nat) :
    decimal_places (qstring_number_f m e prec) = prec := by
  unfold decimal_places qstring_number_f
  have h1 : ("." : String).data = ['.'] := rfl
  have h2 : ∀ L : List Char, (String.mk L).data = L := fun _ => rfl
  simp only [String.data_append, h1, h2, List.reverse_append,
    List.reverse_reverse, List.reverse_cons, List.reverse_nil,
    List.nil_append, List.append_assoc, List.cons_append]
  rw [takeWhile_append_stop _ _ _ _
    (fun c hc => decide_eq_true (frac_digit_chars_ne_dot _ _ c hc))
    (by decide)]
  exact frac_digit_chars_length _ _

lemma set_constant_precision_condition (m e : Nat) :
    (10000 * m < 2 ^ e ∧ m ≠ 0) ↔
    (pid_constant_value m e < 1 / 10000 ∧ pid_constant_value m e ≠ 0) := by
  unfold pid_constant_value
  constructor
  · rintro ⟨h1, h2⟩
    refine ⟨?_, ?_⟩
    · rw [div_lt_div_iff₀ (by positivity) (by norm_num)]
      have hc : ((10000 * m : Nat) : ℚ) < ((2 ^ e : Nat) : ℚ) :=
        Nat.cast_lt.mpr h1
      push_cast at hc
      linarith
    · exact div_ne_zero (Nat.cast_ne_zero.mpr h2) (by positivity)
  · rintro ⟨h1, h2⟩
    refine ⟨?_, ?_⟩
    · rw [div_lt_div_iff₀ (by positivity) (by norm_num)] at h1
      have hc : ((10000 * m : Nat) : ℚ) < ((2 ^ e : Nat) : ℚ) := by
        push_cast
        linarith
      exact_mod_cast hc
    · intro h0
      exact h2 (by simp [h0])

/-- **C8** (corrected): within the widget's spinbox domain
(`multiplier ≤ 1023`, `exponent ≤ 18`), `set_constant` renders the value
`multiplier / 2^exponent` with 5 decimal places by default and with 7
decimal places exactly when the value is less than 0.0001 *and nonzero*;
for `multiplier = 1023`, `exponent = 0` the rendered text is exactly
`"1023.00000"`. -/
theorem C8_set_constant_precision (m e : Nat)
    (_hm : m ≤ 1023) (_he : e ≤ 18) :
    decimal_places (set_constant m e)
      = (if pid_constant_value m e < 1 / 10000 ∧ pid_constant_value m e ≠ 0
         then 7 else 5) ∧
    set_constant 1023 0 = "1023.00000" := by
  constructor
  · unfold set_constant
    have hc := set_constant_precision_condition m e
    by_cases h : 10000 * m < 2 ^ e ∧ m ≠ 0
    · rw [if_pos h, if_pos (hc.mp h), decimal_places_qstring]
    · rw [if_neg h, if_neg (fun hr => h (hc.mpr hr)), decimal_places_qstring]
  · decide

/-- **C8** counterexample: at `multiplier = 0`, `exponent = 0` the value
`0` *is* less than 0.0001, yet `set_constant` renders `"0.00000"` with 5
decimal places, not 7 — the source condition is
`constant < 0.0001 && constant != 0`, so the claim's "whenever the value
is less than 0.0001" omits the nonzero requirement. -/
theorem C8_counterexample :
    pid_constant_value 0 0 < 1 / 10000 ∧
    set_constant 0 0 = "0.00000" ∧
    decimal_places (set_constant 0 0) = 5 := by
  refine ⟨by norm_num [pid_constant_value], by decide, by decide⟩

/-- Witness for C8: the precision equation applied at
`multiplier = 1023`, `exponent = 0`. -/
theorem C8_set_constant_precision_witness :
    decimal_places (set_constant 1023 0) = 5 ∧
    set_constant 1023 0 = "1023.00000" := by
  have h := C8_set_constant_precision 1023 0 (by norm_num) (by norm_num)
  have hnot : ¬(pid_constant_value 1023 0 < 1 / 10000 ∧
      pid_constant_value 1023 0 ≠ 0) := by
    rintro ⟨hlt, _⟩
    norm_num [pid_constant_value] at hlt
  exact ⟨h.1.trans (if_neg hnot), h.2⟩
